import Mathlib

/-!
Verification of the dokploy API command-line utilities: a shallow embedding
of the core pure logic (fallback delete orchestration, batch execution,
client-side filtering, OpenAPI endpoint extraction, coverage analysis,
endpoint classification, configuration resolution, and request dispatch),
with theorems checking the natural-language specification against it.

Python dictionaries are embedded as insertion-ordered association lists,
Python sets as lists queried by membership, and numeric division as exact
rational arithmetic.
-/

namespace Dokploy

/-- Python `str.lower()`. Characters are lowered one by one; the endpoint
names, HTTP methods and filter values this is applied to are ASCII, where
`Char.toLower` agrees with Python. -/
def pyLower (s : String) : String := String.mk (s.data.map Char.toLower)

/-- Python `str.upper()` (ASCII range, as for `pyLower`). -/
def pyUpper (s : String) : String := String.mk (s.data.map Char.toUpper)

/-- Containment of `needle` as a contiguous run inside a character list. -/
def containsSeq (needle : List Char) : List Char → Bool
  | [] => needle.isEmpty
  | c :: rest => needle.isPrefixOf (c :: rest) || containsSeq needle rest

/-- Python `needle in haystack` on strings: substring containment
(`haystack.find(needle) != -1` is the same test). -/
def strContains (haystack needle : String) : Bool :=
  containsSeq needle.data haystack.data

/-- Python `str.lstrip("/")`: drop every leading slash. -/
def lstripSlash (s : String) : String :=
  String.mk (s.data.dropWhile (fun c => c = '/'))

/-- Python `s.split(".")[0]`: the text before the first `"."`. -/
def firstDotSegment (s : String) : String :=
  String.mk (s.data.takeWhile (fun c => c ≠ '.'))

example : pyLower "GeT" = "get" := by decide
example : pyUpper "put" = "PUT" := by decide
example : strContains "application.delete" ".delete" = true := by decide
example : strContains "app" ".delete" = false := by decide
example : lstripSlash "/project.create" = "project.create" := by decide
example : firstDotSegment "project.create" = "project" := by decide

/-! ## JSON values

JSON values as delivered by `response.json()` / `json.load`. Python
represents them as `None`, `bool`, numbers, `str`, `list` and insertion-ordered
`dict`; numbers are embedded as integers (no claim depends on float values). -/

/-- A JSON value. -/
inductive Json where
  | null
  | bool (b : Bool)
  | num (n : Int)
  | str (s : String)
  | arr (items : List Json)
  | obj (fields : List (String × Json))
  deriving Repr

/-- Python `isinstance(x, dict)`. -/
def Json.isObj : Json → Bool
  | .obj _ => true
  | _ => false

/-- The fields of a JSON object (`dict.items()`); `[]` for non-objects. -/
def Json.objFields : Json → List (String × Json)
  | .obj fields => fields
  | _ => []

/-- Python `d.get(key, default)` on a JSON object. The source only applies
`.get` to dictionaries; on a non-object the default is returned. -/
def Json.getD (j : Json) (key : String) (dflt : Json) : Json :=
  match j.objFields.lookup key with
  | some v => v
  | none => dflt

/-! ## C6: endpoint classification (`categorize_endpoint`, src/utils/validate.py) -/

/-- The CRUD keywords of `categorize_endpoint`. -/
def crudKeywords : List String := [".create", ".one", ".update", ".delete", ".remove"]

/-- The lifecycle keywords of `categorize_endpoint`. -/
def lifecycleKeywords : List String :=
  [".deploy", ".redeploy", ".start", ".stop", ".reload", ".restart"]

/-- The list/query keywords of `categorize_endpoint`. -/
def queryKeywords : List String := [".all", ".list", ".get"]

/-- `categorize_endpoint` (src/utils/validate.py lines 147-164): classify an
endpoint by substring keyword match on its lowercased form, CRUD first, then
Lifecycle, then Query, defaulting to Management. -/
def categorize_endpoint (endpoint : String) : String :=
  let endpoint_lower := pyLower endpoint
  if crudKeywords.any (fun op => strContains endpoint_lower op) then "CRUD"
  else if lifecycleKeywords.any (fun op => strContains endpoint_lower op) then "Lifecycle"
  else if queryKeywords.any (fun op => strContains endpoint_lower op) then "Query"
  else "Management"

/-- The specification's formulation of the same rule: an ordered list of
(kind, keyword set) pairs, decided by first match, else Management. -/
def priorityRules : List (String × List String) :=
  [("CRUD", crudKeywords), ("Lifecycle", lifecycleKeywords), ("Query", queryKeywords)]

/-- First-match-wins classification over `priorityRules`. -/
def classifyByRules (endpoint : String) : String :=
  match priorityRules.find? (fun rule => rule.2.any (fun op => strContains (pyLower endpoint) op)) with
  | some rule => rule.1
  | none => "Management"

example : categorize_endpoint "application.delete" = "CRUD" := by decide
example : categorize_endpoint "application.deploy" = "Lifecycle" := by decide
example : categorize_endpoint "project.all" = "Query" := by decide
example : categorize_endpoint "settings.health" = "Management" := by decide
example : categorize_endpoint "x.delete.deploy" = "CRUD" := by decide

/-! ## C10: request dispatch (`make_api_request`, src/lib/dokploy.py) -/

/-- A wire-level HTTP request, as issued by the `requests` library calls
inside `make_api_request`: the verb actually used on the wire, the endpoint,
the headers, and either a JSON body or query parameters. -/
inductive WireRequest where
  | getReq (endpoint : String) (headers : List (String × String)) (params : Option Json)
  | postReq (endpoint : String) (headers : List (String × String)) (body : Option Json)
  | deleteReq (endpoint : String) (headers : List (String × String)) (body : Option Json)

/-- The headers built by `make_api_request`: `Content-Type` is added exactly
when a body is present. -/
def apiHeaders (api_key : String) (data : Option Json) : List (String × String) :=
  let headers := [("accept", "application/json"), ("x-api-key", api_key)]
  if data.isSome then headers ++ [("Content-Type", "application/json")] else headers

/-- `make_api_request` (src/lib/dokploy.py lines 115-145): dispatch on the
uppercased method string; GET goes out as GET with query parameters, POST,
PUT and PATCH all go out as `requests.post` with a JSON body, DELETE goes out
as `requests.delete` with a JSON body, anything else raises `ValueError`
before any request is issued. -/
def make_api_request (endpoint : String) (method : String) (api_key : String)
    (data : Option Json) (params : Option Json) : Except String WireRequest :=
  let headers := apiHeaders api_key data
  if pyUpper method = "GET" then
    .ok (.getReq endpoint headers params)
  else if ["POST", "PUT", "PATCH"].contains (pyUpper method) then
    .ok (.postReq endpoint headers data)
  else if pyUpper method = "DELETE" then
    .ok (.deleteReq endpoint headers data)
  else
    .error ("Unsupported HTTP method: " ++ method)

/-! ## Theorems for C6 and C10 -/

/-- C6: classification is decided by substring keyword match in the fixed
priority order CRUD, then Lifecycle, then Query, else Management, first match
wins — equivalently, by the first matching rule of the ordered rule list —
and every endpoint receives exactly one of the four kinds. -/
theorem C6_categorize_priority (endpoint : String) :
    categorize_endpoint endpoint = classifyByRules endpoint ∧
    (categorize_endpoint endpoint = "CRUD" ↔
      crudKeywords.any (fun op => strContains (pyLower endpoint) op) = true) ∧
    (categorize_endpoint endpoint = "Lifecycle" ↔
      crudKeywords.any (fun op => strContains (pyLower endpoint) op) = false ∧
      lifecycleKeywords.any (fun op => strContains (pyLower endpoint) op) = true) ∧
    (categorize_endpoint endpoint = "Query" ↔
      crudKeywords.any (fun op => strContains (pyLower endpoint) op) = false ∧
      lifecycleKeywords.any (fun op => strContains (pyLower endpoint) op) = false ∧
      queryKeywords.any (fun op => strContains (pyLower endpoint) op) = true) ∧
    categorize_endpoint endpoint ∈ ["CRUD", "Lifecycle", "Query", "Management"] := by
  unfold categorize_endpoint classifyByRules priorityRules
  cases h1 : crudKeywords.any (fun op => strContains (pyLower endpoint) op) <;>
    cases h2 : lifecycleKeywords.any (fun op => strContains (pyLower endpoint) op) <;>
      cases h3 : queryKeywords.any (fun op => strContains (pyLower endpoint) op) <;>
        simp [List.find?, h1, h2, h3]

/-- C10: PUT and PATCH (case-insensitively) are issued over the wire as POST
requests exactly like POST; GET is issued as a GET carrying the query
parameters; DELETE is issued as a true DELETE carrying the JSON body; any
other method string is a `ValueError` and no request is issued. -/
theorem C10_request_dispatch (endpoint method api_key : String)
    (data params : Option Json) :
    (pyUpper method = "PUT" ∨ pyUpper method = "PATCH" ∨ pyUpper method = "POST" →
      make_api_request endpoint method api_key data params =
        .ok (.postReq endpoint (apiHeaders api_key data) data)) ∧
    (pyUpper method = "GET" →
      make_api_request endpoint method api_key data params =
        .ok (.getReq endpoint (apiHeaders api_key data) params)) ∧
    (pyUpper method = "DELETE" →
      make_api_request endpoint method api_key data params =
        .ok (.deleteReq endpoint (apiHeaders api_key data) data)) ∧
    (pyUpper method ∉ ["GET", "POST", "PUT", "PATCH", "DELETE"] →
      make_api_request endpoint method api_key data params =
        .error ("Unsupported HTTP method: " ++ method)) := by
  unfold make_api_request
  refine ⟨?_, ?_, ?_, ?_⟩
  · rintro (h | h | h) <;> simp [h]
  · intro h; simp [h]
  · intro h
    by_cases hg : pyUpper method = "GET" <;>
      simp_all
  · intro h
    simp only [List.mem_cons, List.not_mem_nil] at h
    push_neg at h
    obtain ⟨h1, h2, h3, h4, h5⟩ := h
    simp [h1, h2, h3, h4, h5]

/-- Witness for C10 at concrete inputs: a lowercase "patch" goes out as a
POST, and the unsupported method "HEAD" is rejected. -/
theorem C10_witness :
    (pyUpper "patch" = "PUT" ∨ pyUpper "patch" = "PATCH" ∨ pyUpper "patch" = "POST") ∧
    make_api_request "http://h/api/x" "patch" "k" (some (Json.str "b")) none =
      .ok (.postReq "http://h/api/x" (apiHeaders "k" (some (Json.str "b"))) (some (Json.str "b"))) ∧
    pyUpper "HEAD" ∉ ["GET", "POST", "PUT", "PATCH", "DELETE"] ∧
    make_api_request "http://h/api/x" "HEAD" "k" none none =
      .error ("Unsupported HTTP method: " ++ "HEAD") :=
  ⟨by decide,
   (C10_request_dispatch "http://h/api/x" "patch" "k" (some (Json.str "b")) none).1
     (by decide),
   by decide,
   (C10_request_dispatch "http://h/api/x" "HEAD" "k" none none).2.2.2 (by decide)⟩

/-! ## C1: the fallback delete orchestrator (`delete`, src/api.py) -/

/-- The observable outcome of one HTTP POST attempt: a response carrying a
status code and a flag recording whether its body parses as JSON, or a
transport-level failure (`requests.exceptions.RequestException`). -/
inductive Outcome where
  | response (status : Nat) (bodyParses : Bool)
  | transportError
  deriving Repr, DecidableEq

/-- The `response.status_code == 200` test of the delete paths. -/
def Outcome.isSuccess : Outcome → Bool
  | .response status _ => status = 200
  | .transportError => false

/-- One POST issued by a delete path: full endpoint URL and JSON body. -/
structure PostRequest where
  endpoint : String
  body : List (String × String)
  deriving Repr, DecidableEq

/-- The terminal result of the `delete` command: the requests it issued in
order, and whether it ended in success (early return) or `sys.exit(1)`. -/
structure DeleteResult where
  requests : List PostRequest
  success : Bool
  deriving Repr, DecidableEq

/-- The POST built for one delete attempt: endpoint
`{base_url}/api/{resource}.{operation}` with body `{"{resource}Id": id}`. -/
def deleteRequest (base_url resource operation resource_id : String) : PostRequest :=
  { endpoint := base_url ++ "/api/" ++ resource ++ "." ++ operation,
    body := [(resource ++ "Id", resource_id)] }

/-- The `delete` command (src/api.py lines 301-365), console output elided.
`env op` is the outcome of the POST to the `.{op}` endpoint. The source
iterates over `["remove", "delete"]`: a 200 returns success at once, whether
or not the body parses as JSON (a `JSONDecodeError` on a 200 body is caught
and still reported as a successful delete); a 404, any other non-200 status,
or a transport error on the `"remove"` attempt continues to the `"delete"`
attempt; on the `"delete"` attempt anything but a 200 is `sys.exit(1)`. -/
def delete_resource (base_url resource resource_id : String)
    (env : String → Outcome) : DeleteResult :=
  let bothRequests := [deleteRequest base_url resource "remove" resource_id,
                       deleteRequest base_url resource "delete" resource_id]
  let second : DeleteResult :=
    match env "delete" with
    | .response status _ =>
        if status = 200 then { requests := bothRequests, success := true }
        else { requests := bothRequests, success := false }
    | .transportError => { requests := bothRequests, success := false }
  match env "remove" with
  | .response status _ =>
      if status = 200 then
        { requests := [deleteRequest base_url resource "remove" resource_id],
          success := true }
      else second
  | .transportError => second

/-! ## C2: the batch executor (`batch_delete`, src/api.py) -/

/-- Aggregate state of the `batch-delete` command: the two counters, the
failed identifiers in encounter order, and the durations passed to
`time.sleep` in call order. -/
structure BatchState where
  success_count : Nat
  failed_count : Nat
  failed_ids : List String
  sleeps : List ℚ
  deriving Repr, DecidableEq

/-- The state before the batch loop starts. -/
def initialBatchState : BatchState := ⟨0, 0, [], []⟩

/-- Whether the fallback delete of one identifier succeeds: a 200 on the
`.remove` attempt or, failing that, a 200 on the `.delete` attempt. -/
def itemSucceeds (env : String → String → Outcome) (resource_id : String) : Bool :=
  (env resource_id "remove").isSuccess || (env resource_id "delete").isSuccess

/-- The loop body of `batch_delete` for one identifier (src/api.py lines
560-602): the inner loop over `["remove", "delete"]` followed by the
`if not deleted and resource_id not in failed_ids` safety net. A 200 on
either attempt counts a success and breaks; any non-200 outcome (404,
another status, or a transport error) on the `"remove"` attempt falls
through to the `"delete"` attempt; any non-200 outcome there records the
identifier as failed. `env rid op` is the outcome of the POST to `.{op}`
for identifier `rid`. -/
def batch_process_one (env : String → String → Outcome) (st : BatchState)
    (resource_id : String) : BatchState :=
  let step : BatchState × Bool :=
    if (env resource_id "remove").isSuccess then
      ({ st with success_count := st.success_count + 1 }, true)
    else if (env resource_id "delete").isSuccess then
      ({ st with success_count := st.success_count + 1 }, true)
    else
      ({ st with failed_count := st.failed_count + 1,
                 failed_ids := st.failed_ids ++ [resource_id] }, false)
  let st1 := step.1
  if !step.2 && !(st1.failed_ids.contains resource_id) then
    { st1 with failed_count := st1.failed_count + 1,
               failed_ids := st1.failed_ids ++ [resource_id] }
  else st1

/-- The main loop of `batch_delete` (src/api.py lines 560-607): `idx` is the
1-based index of `enumerate(resource_ids, 1)`, and after each item the loop
sleeps `delay` exactly when `idx < total and delay > 0`. -/
def batch_delete_loop (env : String → String → Outcome) (delay : ℚ) (total : Nat) :
    BatchState → Nat → List String → BatchState
  | st, _, [] => st
  | st, idx, resource_id :: rest =>
      let st1 := batch_process_one env st resource_id
      let st2 := if idx < total ∧ 0 < delay
        then { st1 with sleeps := st1.sleeps ++ [delay] } else st1
      batch_delete_loop env delay total st2 (idx + 1) rest

/-- `batch_delete` (src/api.py lines 536-627): run the loop over all
identifiers, then `sys.exit(1)` when any identifier failed, exit 0
otherwise. Returns the final aggregate state and the exit status. -/
def batch_delete (env : String → String → Outcome) (resource_ids : List String)
    (delay : ℚ) : BatchState × Nat :=
  let st := batch_delete_loop env delay resource_ids.length initialBatchState 1 resource_ids
  (st, if st.failed_ids.isEmpty then 0 else 1)

/-- The safety net of `batch_process_one` never fires: each identifier is
either counted as a success or appended to `failed_ids` exactly once. -/
theorem batch_process_one_eq (env : String → String → Outcome) (st : BatchState)
    (resource_id : String) :
    batch_process_one env st resource_id =
      if itemSucceeds env resource_id then
        { st with success_count := st.success_count + 1 }
      else
        { st with failed_count := st.failed_count + 1,
                  failed_ids := st.failed_ids ++ [resource_id] } := by
  unfold batch_process_one itemSucceeds
  by_cases h1 : (env resource_id "remove").isSuccess <;>
    by_cases h2 : (env resource_id "delete").isSuccess <;>
      simp [h1, h2]

/-- Closed form of the batch loop from any intermediate state, provided the
index invariant `idx + rest.length = total + 1` of the 1-based enumeration
holds and the delay is positive. -/
theorem batch_delete_loop_spec (env : String → String → Outcome) (delay : ℚ)
    (total : Nat) (hdelay : 0 < delay) :
    ∀ (rest : List String) (st : BatchState) (idx : Nat),
      idx + rest.length = total + 1 →
      batch_delete_loop env delay total st idx rest =
        { success_count :=
            st.success_count + (rest.filter (fun r => itemSucceeds env r)).length,
          failed_count :=
            st.failed_count + (rest.filter (fun r => !itemSucceeds env r)).length,
          failed_ids := st.failed_ids ++ rest.filter (fun r => !itemSucceeds env r),
          sleeps := st.sleeps ++ List.replicate (rest.length - 1) delay } := by
  intro rest
  induction rest with
  | nil => intro st idx h; simp [batch_delete_loop]
  | cons r rest ih =>
    intro st idx h
    unfold batch_delete_loop
    rw [batch_process_one_eq]
    dsimp only
    cases rest with
    | nil =>
      have hidx : ¬ (idx < total ∧ 0 < delay) := by
        intro hc; simp at h; omega
      rw [if_neg hidx]
      by_cases hr : itemSucceeds env r <;>
        simp [hr, batch_delete_loop, List.filter_cons]
    | cons r2 rest2 =>
      have hidx : idx < total := by
        simp at h; omega
      have hinv : (idx + 1) + (r2 :: rest2).length = total + 1 := by
        simp at h ⊢; omega
      have hcond : idx < total ∧ 0 < delay := ⟨hidx, hdelay⟩
      rw [if_pos hcond, ih _ (idx + 1) hinv]
      by_cases hr : itemSucceeds env r <;>
        simp [hr, List.filter_cons, List.replicate_succ, BatchState.mk.injEq] <;>
          omega

/-- C2: the batch executor processes every identifier in input order without
aborting early — the success count is the number of identifiers whose
fallback delete succeeded, the failure count the number that failed, the two
add up to the number of identifiers, the failed identifiers are listed in
encounter order — it sleeps the configured delay after each item except the
last, and exits non-zero exactly when the failure count is non-zero. -/
theorem C2_batch_delete_aggregation (env : String → String → Outcome)
    (resource_ids : List String) (delay : ℚ) (hdelay : 0 < delay) :
    ((batch_delete env resource_ids delay).1.success_count =
      (resource_ids.filter (fun r => itemSucceeds env r)).length) ∧
    ((batch_delete env resource_ids delay).1.failed_count =
      (resource_ids.filter (fun r => !itemSucceeds env r)).length) ∧
    ((batch_delete env resource_ids delay).1.success_count +
      (batch_delete env resource_ids delay).1.failed_count = resource_ids.length) ∧
    ((batch_delete env resource_ids delay).1.failed_ids =
      resource_ids.filter (fun r => !itemSucceeds env r)) ∧
    ((batch_delete env resource_ids delay).1.sleeps =
      List.replicate (resource_ids.length - 1) delay) ∧
    ((batch_delete env resource_ids delay).2 ≠ 0 ↔
      (batch_delete env resource_ids delay).1.failed_count ≠ 0) := by
  have hloop := batch_delete_loop_spec env delay resource_ids.length hdelay
    resource_ids initialBatchState 1 (by omega)
  unfold batch_delete
  rw [hloop]
  have hlen : (resource_ids.filter (fun r => itemSucceeds env r)).length +
      (resource_ids.filter (fun r => !itemSucceeds env r)).length =
      resource_ids.length := by
    have := (List.filter_append_perm (fun r => itemSucceeds env r) resource_ids).length_eq
    simpa using this
  refine ⟨by simp [initialBatchState], by simp [initialBatchState],
    by simp [initialBatchState, hlen], by simp [initialBatchState],
    by simp [initialBatchState], ?_⟩
  simp only [initialBatchState, List.nil_append]
  constructor
  · intro hne
    by_cases hempty : (resource_ids.filter (fun r => !itemSucceeds env r)).isEmpty
    · simp [hempty] at hne
    · simp [List.isEmpty_iff_length_eq_zero] at hempty
      simpa using hempty
  · intro hne
    have : ¬ (resource_ids.filter (fun r => !itemSucceeds env r)).isEmpty := by
      simp [List.isEmpty_iff_length_eq_zero]
      simpa using hne
    simp [this]

/-- C1: the delete operation first POSTs to `{base}/api/{resource}.remove`
with body `{"{resource}Id": id}`; a 200 — parseable body or not — terminates
immediately with success after exactly that one request; any non-200 outcome
(404, another failure status, or a transport error) leads to exactly one
fallback POST to `{resource}.delete`, whose 200 decides overall success;
never more than two requests are issued and no third suffix is tried. -/
theorem C1_delete_remove_then_delete_fallback (base_url resource resource_id : String)
    (env : String → Outcome) :
    ((delete_resource base_url resource resource_id env).requests.head? =
      some (deleteRequest base_url resource "remove" resource_id)) ∧
    ((env "remove").isSuccess = true →
      delete_resource base_url resource resource_id env =
        { requests := [deleteRequest base_url resource "remove" resource_id],
          success := true }) ∧
    ((env "remove").isSuccess = false →
      (delete_resource base_url resource resource_id env).requests =
        [deleteRequest base_url resource "remove" resource_id,
         deleteRequest base_url resource "delete" resource_id] ∧
      (delete_resource base_url resource resource_id env).success =
        (env "delete").isSuccess) ∧
    (delete_resource base_url resource resource_id env).requests.length ≤ 2 := by
  unfold delete_resource
  cases hr : env "remove" with
  | response s b =>
    by_cases h200 : s = 200
    · subst h200
      simp [Outcome.isSuccess]
    · cases hd : env "delete" with
      | response s2 b2 =>
        by_cases h2 : s2 = 200 <;> simp [Outcome.isSuccess, h200, h2]
      | transportError => simp [Outcome.isSuccess, h200]
  | transportError =>
    cases hd : env "delete" with
    | response s2 b2 =>
      by_cases h2 : s2 = 200 <;> simp [Outcome.isSuccess, h2]
    | transportError => simp [Outcome.isSuccess]

/-- An environment where the `.remove` endpoint answers 404 and the
`.delete` endpoint answers 200 with an unparseable (empty) body. -/
def c1ExampleEnv : String → Outcome := fun op =>
  if op = "remove" then Outcome.response 404 true else Outcome.response 200 false

/-- Witness for C1: with a 404 on `.remove`, exactly the two requests go out
and the 200 on `.delete` (unparseable body) decides success. -/
theorem C1_witness :
    (c1ExampleEnv "remove").isSuccess = false ∧
    ((delete_resource "http://h" "project" "p1" c1ExampleEnv).requests =
      [deleteRequest "http://h" "project" "remove" "p1",
       deleteRequest "http://h" "project" "delete" "p1"] ∧
     (delete_resource "http://h" "project" "p1" c1ExampleEnv).success =
       (c1ExampleEnv "delete").isSuccess) :=
  ⟨by decide,
   (C1_delete_remove_then_delete_fallback "http://h" "project" "p1" c1ExampleEnv).2.2.1
     (by decide)⟩

/-- An environment where the identifier `"bad"` hits transport errors on both
attempts and every other identifier succeeds via the `.delete` fallback. -/
def c2ExampleEnv : String → String → Outcome := fun resource_id op =>
  if resource_id = "bad" then Outcome.transportError
  else if op = "remove" then Outcome.response 404 true
  else Outcome.response 200 true

/-- Witness for C2 at a positive delay and a batch whose middle identifier
fails: counts, failed-id order, sleeps and exit status as stated. -/
theorem C2_witness :
    (0 : ℚ) < 1 ∧
    (((batch_delete c2ExampleEnv ["a", "bad", "c"] (1 : ℚ)).1.success_count =
      ((["a", "bad", "c"] : List String).filter
        (fun r => itemSucceeds c2ExampleEnv r)).length) ∧
    ((batch_delete c2ExampleEnv ["a", "bad", "c"] (1 : ℚ)).1.failed_count =
      ((["a", "bad", "c"] : List String).filter
        (fun r => !itemSucceeds c2ExampleEnv r)).length) ∧
    ((batch_delete c2ExampleEnv ["a", "bad", "c"] (1 : ℚ)).1.success_count +
      (batch_delete c2ExampleEnv ["a", "bad", "c"] (1 : ℚ)).1.failed_count =
        (["a", "bad", "c"] : List String).length) ∧
    ((batch_delete c2ExampleEnv ["a", "bad", "c"] (1 : ℚ)).1.failed_ids =
      (["a", "bad", "c"] : List String).filter
        (fun r => !itemSucceeds c2ExampleEnv r)) ∧
    ((batch_delete c2ExampleEnv ["a", "bad", "c"] (1 : ℚ)).1.sleeps =
      List.replicate ((["a", "bad", "c"] : List String).length - 1) (1 : ℚ)) ∧
    ((batch_delete c2ExampleEnv ["a", "bad", "c"] (1 : ℚ)).2 ≠ 0 ↔
      (batch_delete c2ExampleEnv ["a", "bad", "c"] (1 : ℚ)).1.failed_count ≠ 0)) :=
  ⟨by decide, C2_batch_delete_aggregation c2ExampleEnv ["a", "bad", "c"] (1 : ℚ) (by decide)⟩

example : (batch_delete c2ExampleEnv ["a", "bad", "c"] (1 : ℚ)).1.failed_ids = ["bad"] := by
  decide

example : (batch_delete c2ExampleEnv ["a", "bad", "c"] (1 : ℚ)).1.success_count = 2 := by
  decide

/-! ## C3: the client-side filter engine (`query`, src/api.py)

The filter compares `str(item.get(key, "")).lower()` against
`value.lower()` by substring containment, so the embedding needs Python's
`str()` rendering of JSON values. -/

/-- The single-quote character (code point 39). -/
def singleQuoteChar : Char := Char.ofNat 39

/-- The double-quote character (code point 34). -/
def doubleQuoteChar : Char := Char.ofNat 34

/-- The backslash character (code point 92). -/
def backslashChar : Char := Char.ofNat 92

/-- Python `repr` of a string, which is how `str()` renders strings nested
inside lists and dictionaries: quoted with a single quote (or with a double
quote when the string contains a single quote and no double quote), with the
backslash, the quote character, newline, carriage return and tab escaped.
CPython also escapes other control and non-printable characters; those never
occur in the values the claims speak about and stay unescaped here. -/
def pyReprString (s : String) : String :=
  let useDouble := s.data.contains singleQuoteChar && !(s.data.contains doubleQuoteChar)
  let q : Char := if useDouble then doubleQuoteChar else singleQuoteChar
  let escOne (c : Char) : List Char :=
    if c = backslashChar then [backslashChar, backslashChar]
    else if c = q then [backslashChar, q]
    else if c = Char.ofNat 10 then [backslashChar, Char.ofNat 110]
    else if c = Char.ofNat 13 then [backslashChar, Char.ofNat 114]
    else if c = Char.ofNat 9 then [backslashChar, Char.ofNat 116]
    else [c]
  String.mk ([q] ++ (s.data.map escOne).flatten ++ [q])

mutual

/-- Python `str()` on a JSON value: strings render as themselves, `None`,
`True`, `False` and integers as their Python forms, lists and dictionaries
via `repr` of their parts. -/
def pyStr : Json → String
  | .null => "None"
  | .bool true => "True"
  | .bool false => "False"
  | .num n => toString n
  | .str s => s
  | .arr items => "[" ++ String.intercalate ", " (pyReprList items) ++ "]"
  | .obj fields => "\x7b" ++ String.intercalate ", " (pyReprFields fields) ++ "\x7d"

/-- Python `repr()` on a JSON value: as `str()` except strings are quoted. -/
def pyRepr : Json → String
  | .null => "None"
  | .bool true => "True"
  | .bool false => "False"
  | .num n => toString n
  | .str s => pyReprString s
  | .arr items => "[" ++ String.intercalate ", " (pyReprList items) ++ "]"
  | .obj fields => "\x7b" ++ String.intercalate ", " (pyReprFields fields) ++ "\x7d"

/-- `repr` of each element of a list. -/
def pyReprList : List Json → List String
  | [] => []
  | j :: rest => pyRepr j :: pyReprList rest

/-- `repr(key): repr(value)` for each entry of a dictionary. -/
def pyReprFields : List (String × Json) → List String
  | [] => []
  | (k, v) :: rest => (pyReprString k ++ ": " ++ pyRepr v) :: pyReprFields rest

end

example : pyStr (Json.obj []) = "\x7b\x7d" := by decide
example : pyStr (Json.str "running") = "running" := by decide

/-- One filter test of the `query` command (src/api.py lines 486-489):
`isinstance(item, dict) and str(item.get(key, "")).lower().find(value.lower()) != -1`. -/
def query_matches (item : Json) (key value : String) : Bool :=
  item.isObj &&
    strContains (pyLower (pyStr (item.getD key (Json.str "")))) (pyLower value)

/-- The client-side filter of the `query` command (src/api.py lines
483-489): each `field=value` filter narrows the current list in turn. -/
def query_filter (result : List Json) (filters : List (String × String)) : List Json :=
  filters.foldl
    (fun filtered_items kv =>
      filtered_items.filter (fun item => query_matches item kv.1 kv.2))
    result

/-- Applying the filters one after another equals filtering once by their
conjunction. -/
theorem query_filter_eq_filter_all (filters : List (String × String))
    (result : List Json) :
    query_filter result filters =
      result.filter (fun item => filters.all (fun kv => query_matches item kv.1 kv.2)) := by
  induction filters generalizing result with
  | nil => simp [query_filter]
  | cons f fs ih =>
    unfold query_filter at *
    simp only [List.foldl_cons]
    rw [ih, List.filter_filter]
    congr 1
    funext item
    simp [Bool.and_comm]

/-- C3: on a list of JSON objects the query filter returns the ordered
subsequence of objects each of whose filtered fields contains the pattern
case-insensitively in the string form of the field value, a missing field
reading as the empty string; multiple filters conjoin; an empty filter
mapping returns the input unchanged; and a missing field never matches a
non-empty pattern. -/
theorem C3_query_filter_characterization (result : List Json)
    (filters : List (String × String)) (hobj : result.all Json.isObj = true) :
    query_filter result [] = result ∧
    query_filter result filters =
      result.filter (fun item =>
        filters.all (fun kv =>
          strContains (pyLower (pyStr (item.getD kv.1 (Json.str "")))) (pyLower kv.2))) ∧
    (∀ (fields : List (String × Json)) (key value : String),
      fields.lookup key = none → value ≠ "" →
      query_matches (Json.obj fields) key value = false) := by
  refine ⟨by simp [query_filter], ?_, ?_⟩
  · rw [query_filter_eq_filter_all]
    apply List.filter_congr
    intro item hmem
    have hitem : item.isObj = true := by
      rw [List.all_eq_true] at hobj
      exact hobj item hmem
    simp [query_matches, hitem]
  · intro fields key value hnone hval
    have hdata : (pyLower value).data ≠ [] := by
      intro hnil
      apply hval
      have hvd : value.data.map Char.toLower = [] := hnil
      rw [List.map_eq_nil_iff] at hvd
      cases value with
      | mk data =>
        simp only at hvd
        subst hvd
        rfl
    simp only [query_matches, Json.isObj, Json.getD, Json.objFields, hnone]
    simp only [Bool.true_and]
    show containsSeq (pyLower value).data (pyLower (pyStr (Json.str ""))).data = false
    have hempty : (pyLower (pyStr (Json.str ""))).data = [] := by decide
    rw [hempty]
    unfold containsSeq
    simpa [List.isEmpty_iff] using hdata

/-- The example item list of the specification: statuses `"running"`,
`"exited"`, and the empty dictionary. -/
def c3ExampleItems : List Json :=
  [Json.obj [("status", Json.str "running")],
   Json.obj [("status", Json.str "exited")],
   Json.obj [("status", Json.obj [])]]

/-- Witness for C3 at the specification's example: all items are objects and
the filter `status=run` reduces to one pass over the list. -/
theorem C3_witness :
    c3ExampleItems.all Json.isObj = true ∧
    (query_filter c3ExampleItems [] = c3ExampleItems ∧
     query_filter c3ExampleItems [("status", "run")] =
       c3ExampleItems.filter (fun item =>
         ([("status", "run")] : List (String × String)).all (fun kv =>
           strContains (pyLower (pyStr (item.getD kv.1 (Json.str "")))) (pyLower kv.2))) ∧
    (∀ (fields : List (String × Json)) (key value : String),
      fields.lookup key = none → value ≠ "" →
      query_matches (Json.obj fields) key value = false)) :=
  ⟨by decide, C3_query_filter_characterization c3ExampleItems [("status", "run")] (by decide)⟩

example :
    query_filter c3ExampleItems [("status", "run")] =
      [Json.obj [("status", Json.str "running")]] := by
  rfl

example : query_filter c3ExampleItems [("status", "exited")] =
    [Json.obj [("status", Json.str "exited")]] := by
  rfl

/-! ## C4: OpenAPI endpoint extraction (`extract_endpoints`, src/lib/dokploy.py) -/

/-- An extracted endpoint descriptor, one per qualifying (path, method)
entry. The four detail fields hold whatever JSON value the document carries
there (they are read with `.get` and a default). -/
structure Endpoint where
  path : String
  method : String
  summary : Json
  description : Json
  tags : Json
  operationId : Json
  deriving Repr

/-- The HTTP methods recognised by the extractor. -/
def httpMethods : List String := ["get", "post", "put", "delete", "patch"]

/-- `extract_endpoints` (src/lib/dokploy.py lines 87-112): iterate the
`paths` mapping (default empty) in document order and, inside each path, its
keys in order, keeping exactly those entries whose lowercased key is an HTTP
method; any other key (`parameters`, …) contributes nothing. Missing
`summary`, `description` and `operationId` default to `""` and missing
`tags` to `[]`. Well-formed documents carry objects under `paths` and under
each method key; `.items()` and `.get` are embedded by `Json.objFields` and
`Json.getD`, which read a non-object as empty. -/
def extract_endpoints (openapi_spec : Json) : List Endpoint :=
  let paths := openapi_spec.getD "paths" (Json.obj [])
  paths.objFields.foldl
    (fun endpoints pathEntry =>
      pathEntry.2.objFields.foldl
        (fun endpoints methodEntry =>
          if httpMethods.contains (pyLower methodEntry.1) then
            endpoints ++
              [{ path := pathEntry.1,
                 method := pyUpper methodEntry.1,
                 summary := methodEntry.2.getD "summary" (Json.str ""),
                 description := methodEntry.2.getD "description" (Json.str ""),
                 tags := methodEntry.2.getD "tags" (Json.arr []),
                 operationId := methodEntry.2.getD "operationId" (Json.str "") }]
          else endpoints)
        endpoints)
    []

/-- Folding a guarded append over a list collects the images of the entries
that pass the guard, after the accumulator. -/
theorem foldl_guarded_append {α β : Type} (P : α → Bool) (g : α → β) :
    ∀ (l : List α) (acc : List β),
      l.foldl (fun a x => if P x then a ++ [g x] else a) acc =
        acc ++ (l.filter P).map g := by
  intro l
  induction l with
  | nil => intro acc; simp
  | cons x xs ih =>
    intro acc
    by_cases hx : P x <;> simp [List.filter_cons, hx, ih]

/-- C4: the extractor yields, in document order, exactly one descriptor per
(path, method) entry whose key is case-insensitively an HTTP method, with
the method uppercased, the detail fields read with their defaults, and every
other key under a path contributing no descriptor. -/
theorem C4_extract_endpoints_characterization (openapi_spec : Json) :
    extract_endpoints openapi_spec =
      (openapi_spec.getD "paths" (Json.obj [])).objFields.flatMap
        (fun pathEntry =>
          (pathEntry.2.objFields.filter
            (fun methodEntry => httpMethods.contains (pyLower methodEntry.1))).map
            (fun methodEntry =>
              { path := pathEntry.1,
                method := pyUpper methodEntry.1,
                summary := methodEntry.2.getD "summary" (Json.str ""),
                description := methodEntry.2.getD "description" (Json.str ""),
                tags := methodEntry.2.getD "tags" (Json.arr []),
                operationId := methodEntry.2.getD "operationId" (Json.str "") })) := by
  unfold extract_endpoints
  dsimp only
  generalize (openapi_spec.getD "paths" (Json.obj [])).objFields = entries
  suffices h : ∀ acc : List Endpoint,
      entries.foldl
        (fun endpoints pathEntry =>
          pathEntry.2.objFields.foldl
            (fun endpoints methodEntry =>
              if httpMethods.contains (pyLower methodEntry.1) then
                endpoints ++
                  [{ path := pathEntry.1,
                     method := pyUpper methodEntry.1,
                     summary := methodEntry.2.getD "summary" (Json.str ""),
                     description := methodEntry.2.getD "description" (Json.str ""),
                     tags := methodEntry.2.getD "tags" (Json.arr []),
                     operationId := methodEntry.2.getD "operationId" (Json.str "") }]
              else endpoints)
            endpoints) acc =
        acc ++ entries.flatMap
          (fun pathEntry =>
            (pathEntry.2.objFields.filter
              (fun methodEntry => httpMethods.contains (pyLower methodEntry.1))).map
              (fun methodEntry =>
                { path := pathEntry.1,
                  method := pyUpper methodEntry.1,
                  summary := methodEntry.2.getD "summary" (Json.str ""),
                  description := methodEntry.2.getD "description" (Json.str ""),
                  tags := methodEntry.2.getD "tags" (Json.arr []),
                  operationId := methodEntry.2.getD "operationId" (Json.str "") })) by
    simpa using h []
  induction entries with
  | nil => intro acc; simp
  | cons e rest ih =>
    intro acc
    simp only [List.foldl_cons, List.flatMap_cons]
    rw [foldl_guarded_append, ih, List.append_assoc]

/-- The specification's first extractor example: one path carrying a `get`
operation and a non-operation `parameters` key. -/
def c4ExampleDoc : Json :=
  Json.obj [("paths", Json.obj
    [("/a", Json.obj [("get", Json.obj []), ("parameters", Json.arr [])])])]

example :
    (extract_endpoints c4ExampleDoc).map (fun e => (e.path, e.method)) =
      [("/a", "GET")] := by
  rfl

/-- The specification's second extractor example: all five methods present
under one path yield exactly five descriptors. -/
def c4ExampleDocFive : Json :=
  Json.obj [("paths", Json.obj
    [("/a", Json.obj [("get", Json.obj []), ("post", Json.obj []),
                      ("put", Json.obj []), ("delete", Json.obj []),
                      ("patch", Json.obj [])])])]

example :
    (extract_endpoints c4ExampleDocFive).map (fun e => e.method) =
      ["GET", "POST", "PUT", "DELETE", "PATCH"] := by
  rfl

example : (extract_endpoints (Json.obj [])).length = 0 := by rfl

/-! ## C5: the coverage analyzer (`analyze_coverage`, src/utils/validate.py) -/

/-- `IMPLEMENTED_RESOURCES` (src/utils/validate.py lines 30-106): the static
table of implemented resources and their operation endpoints. -/
def IMPLEMENTED_RESOURCES : List (String × List (String × String)) :=
  [("project",
    [("create", "/project.create"), ("read", "/project.one"),
     ("update", "/project.update"), ("delete", "/project.remove")]),
   ("application",
    [("create", "/application.create"), ("read", "/application.one"),
     ("update", "/application.update"), ("delete", "/application.delete"),
     ("deploy", "/application.deploy"), ("redeploy", "/application.redeploy"),
     ("start", "/application.start"), ("stop", "/application.stop"),
     ("reload", "/application.reload")]),
   ("domain",
    [("create", "/domain.create"), ("read", "/domain.one"),
     ("update", "/domain.update"), ("delete", "/domain.delete")]),
   ("compose",
    [("create", "/compose.create"), ("read", "/compose.one"),
     ("update", "/compose.update"), ("delete", "/compose.delete"),
     ("deploy", "/compose.deploy"), ("redeploy", "/compose.redeploy"),
     ("start", "/compose.start"), ("stop", "/compose.stop")]),
   ("backup",
    [("create", "/backup.create"), ("read", "/backup.one"),
     ("update", "/backup.update"), ("delete", "/backup.remove")]),
   ("registry",
    [("create", "/registry.create"), ("read", "/registry.one"),
     ("update", "/registry.update"), ("delete", "/registry.remove")]),
   ("server",
    [("create", "/server.create"), ("read", "/server.one"),
     ("update", "/server.update"), ("delete", "/server.remove")]),
   ("mount",
    [("create", "/mounts.create"), ("read", "/mounts.one"),
     ("update", "/mounts.update"), ("delete", "/mounts.remove")]),
   ("port",
    [("create", "/port.create"), ("read", "/port.one"),
     ("update", "/port.update"), ("delete", "/port.delete")]),
   ("security",
    [("create", "/security.create"), ("read", "/security.one"),
     ("update", "/security.update"), ("delete", "/security.delete")]),
   ("ssh_key",
    [("create", "/sshKey.create"), ("read", "/sshKey.one"),
     ("update", "/sshKey.update"), ("delete", "/sshKey.remove")])]

/-- The covered-endpoint set built by `analyze_coverage` (lines 180-183):
every table endpoint with its leading slash stripped. Python collects them
into a set; list membership is the same test. -/
def covered_endpoints_list : List String :=
  IMPLEMENTED_RESOURCES.flatMap (fun r => r.2.map (fun op => lstripSlash op.2))

/-- The per-category record built by `analyze_coverage` (lines 193-200). -/
structure CategoryReport where
  total : Nat
  covered : Nat
  percentage : ℚ
  endpoints : List String
  covered_endpoints : List String
  uncovered_endpoints : List String
  deriving Repr, DecidableEq

/-- The body of the per-category loop of `analyze_coverage` (lines 189-200),
parameterised by the covered set: `covered` counts the endpoints found in
the covered set, and the two endpoint lists split the category's endpoints
by that same membership test. -/
def analyze_category (covered_set : List String) (endpoints : List String) :
    CategoryReport :=
  let total := endpoints.length
  let covered := (endpoints.filter (fun ep => covered_set.contains ep)).length
  { total := total,
    covered := covered,
    percentage := if 0 < total then (covered : ℚ) / (total : ℚ) * 100 else 0,
    endpoints := endpoints,
    covered_endpoints := endpoints.filter (fun ep => covered_set.contains ep),
    uncovered_endpoints := endpoints.filter (fun ep => !covered_set.contains ep) }

/-- The pure part of `analyze_coverage` (lines 167-205): one report per
category of the partitioned spec endpoints, against the static table. -/
def analyze_coverage (spec_endpoints : List (String × List String)) :
    List (String × CategoryReport) :=
  spec_endpoints.map (fun ce => (ce.1, analyze_category covered_endpoints_list ce.2))

/-- `total_endpoints` of `generate_report` (line 218). -/
def total_endpoints (spec_endpoints : List (String × List String)) : Nat :=
  (spec_endpoints.map (fun ce => ce.2.length)).sum

/-- `total_covered` of `generate_report` (line 219). -/
def total_covered (reports : List (String × CategoryReport)) : Nat :=
  (reports.map (fun cr => cr.2.covered_endpoints.length)).sum

/-- `overall_percentage` of `generate_report` (line 220). -/
def overall_percentage (spec_endpoints : List (String × List String)) : ℚ :=
  let te := total_endpoints spec_endpoints
  let tc := total_covered (analyze_coverage spec_endpoints)
  if 0 < te then (tc : ℚ) / (te : ℚ) * 100 else 0

/-- C5: per category, the covered and uncovered endpoint lists are disjoint
and together are exactly the category's endpoints; the percentage is
`100 * covered / total`, 0 when the total is 0; and the overall percentage
is `100 * totalCovered / totalEndpoints`, defined as 0 — not an arithmetic
error — when there are no endpoints. -/
theorem C5_coverage_invariants (covered_set : List String)
    (endpoints : List String) (spec_endpoints : List (String × List String)) :
    (analyze_category covered_set endpoints).covered_endpoints.Disjoint
      (analyze_category covered_set endpoints).uncovered_endpoints ∧
    ((analyze_category covered_set endpoints).covered_endpoints ++
      (analyze_category covered_set endpoints).uncovered_endpoints).Perm
      (analyze_category covered_set endpoints).endpoints ∧
    ((analyze_category covered_set endpoints).percentage =
      if (analyze_category covered_set endpoints).total = 0 then 0
      else (100 : ℚ) * (analyze_category covered_set endpoints).covered /
        (analyze_category covered_set endpoints).total) ∧
    (overall_percentage spec_endpoints =
      if total_endpoints spec_endpoints = 0 then 0
      else (100 : ℚ) * total_covered (analyze_coverage spec_endpoints) /
        total_endpoints spec_endpoints) := by
  refine ⟨?_, ?_, ?_, ?_⟩
  · intro a ha hb
    simp only [analyze_category, List.mem_filter] at ha hb
    rw [ha.2] at hb
    simp at hb
  · simpa [analyze_category] using
      List.filter_append_perm (fun ep => covered_set.contains ep) endpoints
  · simp only [analyze_category]
    by_cases h : endpoints.length = 0
    · simp [h]
    · have hpos : 0 < endpoints.length := Nat.pos_of_ne_zero h
      simp only [h, hpos, if_true, if_false, ite_true, ite_false]
      ring
  · unfold overall_percentage
    by_cases h : total_endpoints spec_endpoints = 0
    · simp [h]
    · have hpos : 0 < total_endpoints spec_endpoints := Nat.pos_of_ne_zero h
      simp only [h, hpos, if_true, if_false, ite_true, ite_false]
      ring

example :
    (analyze_category ["project.create"] ["project.create", "project.one"]).covered = 1 := by
  rfl

example :
    (analyze_category ["project.create"] ["project.create", "project.one"]).total = 2 := by
  rfl

example :
    (analyze_category ["project.create"] ["project.create", "project.one"]).percentage = 50 := by
  show (if 0 < (2 : Nat) then ((1 : Nat) : ℚ) / ((2 : Nat) : ℚ) * 100 else 0) = 50
  norm_num

example : overall_percentage [] = 0 := by
  norm_num [overall_percentage, total_endpoints]

/-! ## C7: configuration resolution (`load_config`, src/lib/dokploy.py)

`load_config` reads the first `.env` file found — current working
directory, else the module's parent directory — through python-decouple.
Decouple's `Config.get` consults the process environment before the file
repository (environment variables take precedence over the file) and only
then falls back to the default. -/

/-- python-decouple `Config(RepositoryEnv(file)).get(option, default)`: the
process environment first, then the file's contents, then the default. -/
def decouple_get (environ env_file : List (String × String)) (option : String)
    (dflt : Option String) : Option String :=
  match environ.lookup option with
  | some v => some v
  | none =>
    match env_file.lookup option with
    | some v => some v
    | none => dflt

/-- The resolved configuration: `api_key` may be absent (Python `None`). -/
structure Config where
  api_key : Option String
  base_url : String
  deriving Repr, DecidableEq

/-- The hardcoded default base URL of `load_config`. -/
def DEFAULT_BASE_URL : String := "http://10.5.162.35:3000"

/-- `load_config` (src/lib/dokploy.py lines 7-44). `cwd_env` and
`parent_env` hold the contents of the two candidate `.env` files when those
files exist, `environ` the process environment. The current-directory file
is chosen whenever it exists, else the parent-directory file; when a file
was chosen its keys are read through decouple (environment first), and with
no file the environment alone is read. No missing key ever raises: both
keys carry defaults. -/
def load_config (cwd_env parent_env : Option (List (String × String)))
    (environ : List (String × String)) : Config :=
  let env_file := match cwd_env with
    | some f => some f
    | none => parent_env
  match env_file with
  | some f =>
    { api_key := decouple_get environ f "API_KEY" none,
      base_url := (decouple_get environ f "BASE_URL" (some DEFAULT_BASE_URL)).getD
        DEFAULT_BASE_URL }
  | none =>
    { api_key := environ.lookup "API_KEY",
      base_url := (environ.lookup "BASE_URL").getD DEFAULT_BASE_URL }

/-- Python `x or y` for an optional string `x`: `None` and `""` are falsy. -/
def pyOrOpt (x : Option String) (y : Option String) : Option String :=
  match x with
  | some s => if s = "" then y else some s
  | none => y

/-- `api_key = api_key or config["api_key"]` and
`base_url = url or config["base_url"]`: every command resolves the explicit
command-line arguments over the loaded configuration (src/api.py lines
89-91 and the analogous lines of the other commands). -/
def resolve_credentials (arg_api_key arg_url : Option String)
    (cwd_env parent_env : Option (List (String × String)))
    (environ : List (String × String)) : Config :=
  let config := load_config cwd_env parent_env environ
  { api_key := pyOrOpt arg_api_key config.api_key,
    base_url := (pyOrOpt arg_url (some config.base_url)).getD DEFAULT_BASE_URL }

/-- The first defined value among a list of optional sources. -/
def firstSome : List (Option String) → Option String
  | [] => none
  | some v :: _ => some v
  | none :: rest => firstSome rest

/-- Modelled from the claim's words: the stated search order for the API
key — explicit argument, then the current-directory file, then the
parent-directory file, then the process environment. -/
def spec_order_api_key (arg : Option String)
    (cwd_env parent_env : Option (List (String × String)))
    (environ : List (String × String)) : Option String :=
  pyOrOpt arg (firstSome
    [cwd_env.bind (fun f => f.lookup "API_KEY"),
     parent_env.bind (fun f => f.lookup "API_KEY"),
     environ.lookup "API_KEY"])

/-- Counterexample to C7: when the current-directory file defines
`API_KEY=from-file` while the environment carries `API_KEY=from-env`, the
code resolves the environment value, not the file value demanded by the
claimed search order. -/
theorem C7_counterexample :
    (resolve_credentials none none (some [("API_KEY", "from-file")]) none
      [("API_KEY", "from-env")]).api_key = some "from-env" ∧
    spec_order_api_key none (some [("API_KEY", "from-file")]) none
      [("API_KEY", "from-env")] = some "from-file" ∧
    (resolve_credentials none none (some [("API_KEY", "from-file")]) none
      [("API_KEY", "from-env")]).api_key ≠
      spec_order_api_key none (some [("API_KEY", "from-file")]) none
        [("API_KEY", "from-env")] := by
  decide

/-- The file actually consulted by `load_config`: the current-directory
file when it exists, else the parent-directory file. -/
def chosen_env_file (cwd_env parent_env : Option (List (String × String))) :
    Option (List (String × String)) :=
  match cwd_env with
  | some f => some f
  | none => parent_env

/-- The amended search order for the API key: explicit argument, process
environment, then the single chosen key-value file; absent everywhere it
resolves to `none`. -/
def amended_api_key (arg : Option String)
    (cwd_env parent_env : Option (List (String × String)))
    (environ : List (String × String)) : Option String :=
  pyOrOpt arg (firstSome
    [environ.lookup "API_KEY",
     (chosen_env_file cwd_env parent_env).bind (fun f => f.lookup "API_KEY")])

/-- The amended search order for the base URL: explicit argument, process
environment, the chosen file, then the hardcoded default. -/
def amended_base_url (arg : Option String)
    (cwd_env parent_env : Option (List (String × String)))
    (environ : List (String × String)) : String :=
  (pyOrOpt arg (firstSome
    [environ.lookup "BASE_URL",
     (chosen_env_file cwd_env parent_env).bind (fun f => f.lookup "BASE_URL")])).getD
    DEFAULT_BASE_URL

/-- C7 amended: resolution follows the order explicit argument, process
environment, then the one key-value file that exists (current directory
preferred over parent), then the hardcoded default base URL; nothing ever
raises for a missing key and an API key defined by no source is `none`. -/
theorem C7_config_resolution_amended (arg_api_key arg_url : Option String)
    (cwd_env parent_env : Option (List (String × String)))
    (environ : List (String × String)) :
    (resolve_credentials arg_api_key arg_url cwd_env parent_env environ).api_key =
      amended_api_key arg_api_key cwd_env parent_env environ ∧
    (resolve_credentials arg_api_key arg_url cwd_env parent_env environ).base_url =
      amended_base_url arg_url cwd_env parent_env environ := by
  have hkey : ∀ f : List (String × String),
      decouple_get environ f "API_KEY" none =
        firstSome [environ.lookup "API_KEY", f.lookup "API_KEY"] := by
    intro f
    unfold decouple_get firstSome
    cases environ.lookup "API_KEY" <;> cases f.lookup "API_KEY" <;> simp [firstSome]
  have hurl : ∀ f : List (String × String),
      (decouple_get environ f "BASE_URL" (some DEFAULT_BASE_URL)).getD DEFAULT_BASE_URL =
        (firstSome [environ.lookup "BASE_URL", f.lookup "BASE_URL"]).getD
          DEFAULT_BASE_URL := by
    intro f
    unfold decouple_get firstSome
    cases environ.lookup "BASE_URL" <;> cases f.lookup "BASE_URL" <;> simp [firstSome]
  cases cwd_env with
  | some f =>
    constructor
    · show pyOrOpt arg_api_key (decouple_get environ f "API_KEY" none) = _
      rw [hkey]
      rfl
    · show (pyOrOpt arg_url (some ((decouple_get environ f "BASE_URL"
        (some DEFAULT_BASE_URL)).getD DEFAULT_BASE_URL))).getD DEFAULT_BASE_URL = _
      cases harg : arg_url with
      | none =>
        simp only [pyOrOpt, Option.getD_some]
        rw [hurl]
        rfl
      | some s =>
        by_cases hs : s = ""
        · simp only [pyOrOpt, hs, ite_true, Option.getD_some]
          rw [hurl]
          rfl
        · simp [amended_base_url, pyOrOpt, chosen_env_file, hs]
  | none =>
    cases parent_env with
    | some f =>
      constructor
      · show pyOrOpt arg_api_key (decouple_get environ f "API_KEY" none) = _
        rw [hkey]
        rfl
      · show (pyOrOpt arg_url (some ((decouple_get environ f "BASE_URL"
          (some DEFAULT_BASE_URL)).getD DEFAULT_BASE_URL))).getD DEFAULT_BASE_URL = _
        cases harg : arg_url with
        | none =>
          simp only [pyOrOpt, Option.getD_some]
          rw [hurl]
          rfl
        | some s =>
          by_cases hs : s = ""
          · simp only [pyOrOpt, hs, ite_true, Option.getD_some]
            rw [hurl]
            rfl
          · simp [amended_base_url, pyOrOpt, chosen_env_file, hs]
    | none =>
      constructor
      · show pyOrOpt arg_api_key (environ.lookup "API_KEY") = _
        unfold amended_api_key chosen_env_file firstSome
        cases environ.lookup "API_KEY" <;> simp [firstSome]
      · show (pyOrOpt arg_url (some ((environ.lookup "BASE_URL").getD
          DEFAULT_BASE_URL))).getD DEFAULT_BASE_URL = _
        unfold amended_base_url chosen_env_file
        cases harg : arg_url with
        | none =>
          simp only [pyOrOpt, Option.getD_some]
          cases environ.lookup "BASE_URL" <;> simp [firstSome]
        | some s =>
          by_cases hs : s = ""
          · simp only [pyOrOpt, hs, ite_true, Option.getD_some]
            cases environ.lookup "BASE_URL" <;> simp [firstSome]
          · simp [pyOrOpt, hs]

example :
    (resolve_credentials none none none none []).api_key = none := by decide

example :
    (resolve_credentials none none none none []).base_url = DEFAULT_BASE_URL := by
  decide

/-! ## C8: partition by category (`extract_crud_endpoints`, src/utils/validate.py) -/

/-- `defaultdict(list)` append on an insertion-ordered multimap: an existing
key has the value appended to its list, a fresh key is added at the end. -/
def multiMapAdd (m : List (String × List String)) (key value : String) :
    List (String × List String) :=
  match m with
  | [] => [(key, [value])]
  | entry :: rest =>
    if entry.1 = key then (entry.1, entry.2 ++ [value]) :: rest
    else entry :: multiMapAdd rest key value

/-- `extract_crud_endpoints` (src/utils/validate.py lines 130-144): iterate
the path keys of `spec["paths"]` in document order; strip leading slashes;
each path containing a `"."` is appended, under the category named by the
text before its first `"."`, to an insertion-ordered `defaultdict(list)`;
a path without a `"."` is skipped. Only the path keys matter, so the
embedding takes the key list. -/
def extract_crud_endpoints (paths : List String) : List (String × List String) :=
  paths.foldl
    (fun endpoints_by_category path =>
      let path_clean := lstripSlash path
      if strContains path_clean "." then
        multiMapAdd endpoints_by_category (firstDotSegment path_clean) path_clean
      else endpoints_by_category)
    []

/-- Adding one value to the multimap adds exactly that value to the pooled
contents, up to the grouping order. -/
theorem multiMapAdd_flatten_perm (k v : String) :
    ∀ m : List (String × List String),
      ((multiMapAdd m k v).flatMap (fun e => e.2)).Perm
        (v :: m.flatMap (fun e => e.2)) := by
  intro m
  induction m with
  | nil => simp [multiMapAdd]
  | cons entry rest ih =>
    by_cases hk : entry.1 = k
    · simp only [multiMapAdd, hk, if_pos, ite_true, List.flatMap_cons]
      rw [List.append_assoc]
      exact List.perm_middle
    · simp only [multiMapAdd, hk, ite_false, List.flatMap_cons]
      exact List.Perm.trans (List.Perm.append_left entry.2 ih) List.perm_middle

/-- Category correctness is preserved by a correctly-keyed insertion. -/
theorem multiMapAdd_preserves_inv (k v : String) (hkv : firstDotSegment v = k) :
    ∀ m : List (String × List String),
      (∀ c l, (c, l) ∈ m → ∀ p ∈ l, firstDotSegment p = c) →
      ∀ c l, (c, l) ∈ multiMapAdd m k v → ∀ p ∈ l, firstDotSegment p = c := by
  intro m
  induction m with
  | nil =>
    intro _ c l hmem p hp
    simp only [multiMapAdd, List.mem_singleton, Prod.mk.injEq] at hmem
    obtain ⟨hc, hl⟩ := hmem
    subst hc
    subst hl
    simp only [List.mem_singleton] at hp
    subst hp
    exact hkv
  | cons entry rest ih =>
    obtain ⟨ec, el⟩ := entry
    intro hinv c l hmem p hp
    by_cases hk : ec = k
    · simp only [multiMapAdd, hk, ite_true, List.mem_cons, Prod.mk.injEq] at hmem
      rcases hmem with ⟨hc, hl⟩ | hmem
      · rw [hc]
        rw [hl] at hp
        rcases List.mem_append.mp hp with hpe | hpv
        · exact hk ▸ hinv ec el (List.mem_cons_self _ _) p hpe
        · simp only [List.mem_singleton] at hpv
          subst hpv
          exact hkv
      · exact hinv c l (List.mem_cons_of_mem _ hmem) p hp
    · simp only [multiMapAdd, hk, ite_false, List.mem_cons, Prod.mk.injEq] at hmem
      rcases hmem with ⟨hc, hl⟩ | hmem
      · rw [hc]
        rw [hl] at hp
        exact hinv ec el (List.mem_cons_self _ _) p hp
      · exact ih (fun c' l' hm => hinv c' l' (List.mem_cons_of_mem _ hm)) c l hmem p hp

/-- The key list after an insertion: unchanged for a known key, extended at
the end for a fresh one. -/
theorem multiMapAdd_keys (k v : String) :
    ∀ m : List (String × List String),
      (multiMapAdd m k v).map Prod.fst =
        if (m.map Prod.fst).contains k then m.map Prod.fst
        else m.map Prod.fst ++ [k] := by
  intro m
  induction m with
  | nil => simp [multiMapAdd]
  | cons entry rest ih =>
    obtain ⟨ec, el⟩ := entry
    by_cases hk : ec = k
    · subst hk
      simp [multiMapAdd]
    · simp only [multiMapAdd, hk, ite_false, List.map_cons, ih, List.contains_cons]
      have hbeq : (k == ec) = false := by
        simp only [beq_eq_false_iff_ne, ne_eq]
        exact fun h => hk h.symm
      rw [hbeq]
      simp only [Bool.false_or]
      by_cases hc : (rest.map Prod.fst).contains k
      · rw [if_pos hc, if_pos hc]
      · rw [if_neg hc, if_neg hc, List.cons_append]

/-- Key distinctness is preserved by insertion. -/
theorem multiMapAdd_keys_nodup (k v : String) (m : List (String × List String))
    (hnd : (m.map Prod.fst).Nodup) : ((multiMapAdd m k v).map Prod.fst).Nodup := by
  rw [multiMapAdd_keys]
  by_cases hc : (m.map Prod.fst).contains k
  · rw [if_pos hc]
    exact hnd
  · rw [if_neg hc]
    rw [List.nodup_append]
    refine ⟨hnd, List.nodup_singleton k, ?_⟩
    intro a ha hb
    simp only [List.mem_singleton] at hb
    subst hb
    apply hc
    simpa using ha

/-- Counterexample to C8: a path without a `"."` (here `"/health"`) is
dropped from the partition entirely — the categories' pooled endpoint lists
do not contain every path of the document. -/
theorem C8_counterexample :
    extract_crud_endpoints ["/health"] = [] ∧
    (extract_crud_endpoints ["/health"]).flatMap (fun e => e.2) = [] := by
  decide

/-- C8 amended: every path whose "/"-stripped form contains a `"."` is
assigned to exactly one category — the text before its first `"."` — and
the categories' endpoint lists together contain the stripped form of each
such path exactly once; paths without a `"."` are excluded. Formally: the
pooled category lists are a permutation of the stripped dotted paths, every
entry sits in the category list named by its first dot-segment, and the
category keys are distinct. -/
theorem C8_partition_amended (paths : List String) :
    (((extract_crud_endpoints paths).flatMap (fun e => e.2)).Perm
      ((paths.map lstripSlash).filter (fun p => strContains p "."))) ∧
    (∀ c l, (c, l) ∈ extract_crud_endpoints paths → ∀ p ∈ l, firstDotSegment p = c) ∧
    ((extract_crud_endpoints paths).map Prod.fst).Nodup := by
  unfold extract_crud_endpoints
  suffices h : ∀ (acc : List (String × List String)),
      (∀ c l, (c, l) ∈ acc → ∀ p ∈ l, firstDotSegment p = c) →
      ((acc.map Prod.fst).Nodup) →
      (((paths.foldl
          (fun endpoints_by_category path =>
            let path_clean := lstripSlash path
            if strContains path_clean "." then
              multiMapAdd endpoints_by_category (firstDotSegment path_clean) path_clean
            else endpoints_by_category)
          acc).flatMap (fun e => e.2)).Perm
        ((acc.flatMap (fun e => e.2)) ++
          (paths.map lstripSlash).filter (fun p => strContains p ".")) ∧
      (∀ c l, (c, l) ∈ paths.foldl
          (fun endpoints_by_category path =>
            let path_clean := lstripSlash path
            if strContains path_clean "." then
              multiMapAdd endpoints_by_category (firstDotSegment path_clean) path_clean
            else endpoints_by_category)
          acc → ∀ p ∈ l, firstDotSegment p = c) ∧
      ((paths.foldl
          (fun endpoints_by_category path =>
            let path_clean := lstripSlash path
            if strContains path_clean "." then
              multiMapAdd endpoints_by_category (firstDotSegment path_clean) path_clean
            else endpoints_by_category)
          acc).map Prod.fst).Nodup) by
    have := h [] (by simp) (by simp)
    simpa using this
  induction paths with
  | nil =>
    intro acc hinv hnd
    simp only [List.foldl_nil, List.map_nil, List.filter_nil, List.append_nil]
    exact ⟨List.Perm.refl _, hinv, hnd⟩
  | cons p rest ih =>
    intro acc hinv hnd
    simp only [List.foldl_cons, List.map_cons, List.filter_cons]
    by_cases hdot : strContains (lstripSlash p) "."
    · simp only [hdot, ite_true]
      have hstep := ih (multiMapAdd acc (firstDotSegment (lstripSlash p)) (lstripSlash p))
        (multiMapAdd_preserves_inv _ _ rfl acc hinv)
        (multiMapAdd_keys_nodup _ _ acc hnd)
      refine ⟨?_, hstep.2.1, hstep.2.2⟩
      refine List.Perm.trans hstep.1 ?_
      refine List.Perm.trans ((multiMapAdd_flatten_perm _ _ acc).append_right _) ?_
      simpa using List.perm_middle.symm
    · simp only [hdot, ite_false]
      exact (ih acc hinv hnd)

/-! ## C9: export round trip (`export_to_json` / `export_to_yaml`, src/utils/extract.py)

`export_to_json` writes `json.dumps(endpoints, indent=2)` and
`export_to_yaml` writes `yaml.dump(endpoints, default_flow_style=False,
sort_keys=False)`. Both serialise the descriptor list unchanged: one array
or sequence entry per descriptor, in order, each a mapping whose keys keep
the insertion order of `extract_endpoints` (`json.dumps` preserves dict
order; `sort_keys=False` keeps it for YAML). Re-parsing the emitted text
returns the serialised document — the inverse-of-dump contract of the
`json` and `yaml` libraries — so the embedding studies that document tree. -/

/-- The document node one endpoint descriptor serialises to: the dictionary
built by `extract_endpoints`, keys in insertion order. -/
def endpointToJson (e : Endpoint) : Json :=
  Json.obj [("path", Json.str e.path), ("method", Json.str e.method),
            ("summary", e.summary), ("description", e.description),
            ("tags", e.tags), ("operationId", e.operationId)]

/-- The document written by `export_to_json` (src/utils/extract.py lines
91-99): the descriptor list as an array, unchanged and in order. -/
def export_to_json (endpoints : List Endpoint) : Json :=
  Json.arr (endpoints.map endpointToJson)

/-- The document written by `export_to_yaml` (lines 102-110): the same
sequence of mappings, key order kept by `sort_keys=False`. -/
def export_to_yaml (endpoints : List Endpoint) : Json :=
  Json.arr (endpoints.map endpointToJson)

/-- The string carried by a JSON node, for reading parsed exports back. -/
def Json.asString : Json → String
  | .str s => s
  | _ => ""

/-- Read the (path, method) pairs back from a re-parsed export document. -/
def reparse_path_method_pairs (doc : Json) : List (String × String) :=
  match doc with
  | .arr items =>
    items.map (fun item =>
      ((item.getD "path" Json.null).asString,
       (item.getD "method" Json.null).asString))
  | _ => []

/-- C9: re-parsing either structured export of an extraction yields exactly
the extraction's (path, method) sequence, in the same order. -/
theorem C9_export_round_trip (openapi_spec : Json) :
    reparse_path_method_pairs (export_to_json (extract_endpoints openapi_spec)) =
      (extract_endpoints openapi_spec).map (fun e => (e.path, e.method)) ∧
    reparse_path_method_pairs (export_to_yaml (extract_endpoints openapi_spec)) =
      (extract_endpoints openapi_spec).map (fun e => (e.path, e.method)) := by
  have h : ∀ l : List Endpoint,
      reparse_path_method_pairs (Json.arr (l.map endpointToJson)) =
        l.map (fun e => (e.path, e.method)) := by
    intro l
    have hred : reparse_path_method_pairs (Json.arr (l.map endpointToJson)) =
        (l.map endpointToJson).map (fun item =>
          ((item.getD "path" Json.null).asString,
           (item.getD "method" Json.null).asString)) := rfl
    rw [hred, List.map_map]
    have hfun : ((fun item : Json =>
        ((item.getD "path" Json.null).asString,
         (item.getD "method" Json.null).asString)) ∘ endpointToJson) =
        (fun e : Endpoint => (e.path, e.method)) := by
      funext e
      rfl
    rw [hfun]
  exact ⟨h _, h _⟩

example :
    reparse_path_method_pairs (export_to_json (extract_endpoints c4ExampleDoc)) =
      [("/a", "GET")] := by
  rfl

end Dokploy
